import Mathlib

/-!
Shallow embedding of the telemetrics F1 data pipeline
(backend/scripts: fastf1_extractor.py, data_transformers.py, main_pipeline.py)
together with proofs about its behaviour.

Conventions used throughout the embedding:
* pandas nullable scalars (NaN / NaT / absent keys) are `Option` values
  (`none` = missing);
* duration-typed columns (lap times, race times) are whole milliseconds
  (`Nat`); all concrete times of the specification are exact in milliseconds;
* float-valued columns (Distance, Speed, X, Y, Position, Points) are exact
  rationals `ℚ`;
* pandas `sort_values` (whose tie order is unspecified) is modelled as a
  stable insertion sort on the same key; every property proved below is
  independent of the tie order;
* `DataFrame`s are lists of row structures, in frame order.
-/

/-- Python `int(x)` applied to a float value: truncation toward zero. -/
def pyInt (q : ℚ) : ℤ := if 0 ≤ q then ⌊q⌋ else ⌈q⌉

/-- `TEAM_MAPPINGS` from `config.py`: static historical team-name mapping. -/
def TEAM_MAPPINGS : List (String × String) :=
  [("Red Bull Racing", "Red Bull Racing"),
   ("Mercedes", "Mercedes"),
   ("Ferrari", "Ferrari"),
   ("McLaren", "McLaren"),
   ("Alpine F1 Team", "Alpine"),
   ("AlphaTauri", "Racing Bulls"),
   ("Aston Martin", "Aston Martin"),
   ("Williams", "Williams"),
   ("Alfa Romeo", "Kick Sauber"),
   ("Haas F1 Team", "Haas"),
   ("Racing Point", "Aston Martin"),
   ("Renault", "Alpine"),
   ("Toro Rosso", "Racing Bulls"),
   ("Sauber", "Kick Sauber")]

/-- `DataTransformer._normalize_team_name`: `TEAM_MAPPINGS.get(team, team)`. -/
def normalizeTeamName (team : String) : String :=
  (TEAM_MAPPINGS.lookup team).getD team

/-- `DataTransformer._get_team_logo_path`: the `TEAM_LOGO_PATH` template of
`config.py` applied to the normalized, lower-cased, underscore-joined name. -/
def teamLogoPath (normalized : String) : String :=
  "/telemetrics/team_logos/" ++ (normalized.toLower.replace " " "_") ++ ".png"

/-- `DataTransformer._get_driver_headshot_url`: the `DRIVER_HEADSHOT_URL`
template of `config.py`.  The Python code also passes the year to
`str.format`, but the template contains no year placeholder, so the year does
not occur in the result. -/
def headshotUrl (driverAbbr : String) : String :=
  "/telemetrics/driver_images/" ++ driverAbbr.toUpper ++ ".png"

/-- `DataTransformer._format_timedelta`: `"DNF"` for a missing (NaT) value.
The text of a present value (`str(td)` in the source) is abstracted as the
decimal millisecond count; no claim depends on that text, only on the
`"DNF"`-for-null rule. -/
def formatTimedelta : Option Nat → String
  | none => "DNF"
  | some ms => toString ms

/-- `DataTransformer._get_compound_name`: normalize a tyre compound;
unrecognized or missing input maps to `"UNKNOWN"`.  (The source dictionary
maps each recognized upper-cased name to itself.) -/
def getCompoundName : Option String → String
  | none => "UNKNOWN"
  | some c =>
    let u := c.toUpper
    if u = "SOFT" ∨ u = "MEDIUM" ∨ u = "HARD" ∨ u = "INTERMEDIATE" ∨ u = "WET" then u
    else "UNKNOWN"

/-- One row of `session.results` (a driver standing row). -/
structure ResultRow where
  DriverNumber : String
  Abbreviation : String
  TeamName : String
  TeamColor : Option String
  Position : Option ℚ
  Points : Option ℚ
  Status : String
  Time : Option Nat
deriving DecidableEq

/-- One row of `session.laps`. -/
structure LapRow where
  Driver : String
  DriverNumber : String
  LapNumber : Nat
  LapTime : Option Nat
  Compound : Option String
  Position : Option ℚ
deriving DecidableEq

/-- Ordering used by `results.sort_values('Position')`: ascending on the
`Position` key with missing values (NaN) placed last (`na_position='last'`,
the pandas default). -/
def optionRatLe : Option ℚ → Option ℚ → Prop
  | some a, some b => a ≤ b
  | some _, none => True
  | none, some _ => False
  | none, none => True

instance : DecidableRel optionRatLe := fun a b =>
  match a, b with
  | some a, some b => inferInstanceAs (Decidable (a ≤ b))
  | some _, none => inferInstanceAs (Decidable True)
  | none, some _ => inferInstanceAs (Decidable False)
  | none, none => inferInstanceAs (Decidable True)

instance : IsTotal (Option ℚ) optionRatLe := by
  refine ⟨fun a b => ?_⟩
  cases a <;> cases b <;> simp [optionRatLe]
  exact le_total _ _

instance : IsTrans (Option ℚ) optionRatLe := by
  refine ⟨fun a b c hab hbc => ?_⟩
  cases a <;> cases b <;> cases c <;> simp_all [optionRatLe]
  exact le_trans hab hbc

/-- Row comparison for `sort_values('Position')`. -/
def posLe (a b : ResultRow) : Prop := optionRatLe a.Position b.Position

instance : DecidableRel posLe := fun a b =>
  inferInstanceAs (Decidable (optionRatLe a.Position b.Position))

instance : IsTotal ResultRow posLe := ⟨fun _ _ => total_of optionRatLe _ _⟩

instance : IsTrans ResultRow posLe :=
  ⟨fun _ _ _ hab hbc => trans_of optionRatLe hab hbc⟩

/-- `results.sort_values('Position')`. -/
def sortByPosition (results : List ResultRow) : List ResultRow :=
  results.insertionSort posLe

/-- Row comparison for `sort_values('DriverNumber')` (ascending string order). -/
def dnLe (a b : ResultRow) : Prop := a.DriverNumber ≤ b.DriverNumber

instance : DecidableRel dnLe := fun a b =>
  inferInstanceAs (Decidable (a.DriverNumber ≤ b.DriverNumber))

instance : IsTotal ResultRow dnLe := ⟨fun a b => le_total a.DriverNumber b.DriverNumber⟩

instance : IsTrans ResultRow dnLe := ⟨fun _ _ _ hab hbc => le_trans hab hbc⟩

/-- `results.sort_values('DriverNumber')`. -/
def sortByDriverNumber (results : List ResultRow) : List ResultRow :=
  results.insertionSort dnLe

/-- The minimum non-null lap time of one driver (`FastF1Extractor.get_driver_standings`,
practice/qualifying fallback): filter the laps to the driver, drop null lap
times, take the minimum; `none` when the driver has no valid lap. -/
def bestLapTime (laps : List LapRow) (abbr : String) : Option Nat :=
  ((laps.filter (fun l => decide (l.Driver = abbr))).filterMap (fun l => l.LapTime)).min?

/-- The `fastest_laps` list built row by row over `results`: one
`(Abbreviation, BestLapTime)` pair per driver having at least one valid lap. -/
def fastestLapsList (results : List ResultRow) (laps : List LapRow) : List (String × Nat) :=
  results.filterMap (fun r => (bestLapTime laps r.Abbreviation).map (fun t => (r.Abbreviation, t)))

/-- Comparison used by `fastest_df.sort_values('BestLapTime')`. -/
def timeLe (p q : String × Nat) : Prop := p.2 ≤ q.2

instance : DecidableRel timeLe := fun p q => inferInstanceAs (Decidable (p.2 ≤ q.2))

instance : IsTotal (String × Nat) timeLe := ⟨fun p q => Nat.le_total p.2 q.2⟩

instance : IsTrans (String × Nat) timeLe := ⟨fun _ _ _ hab hbc => Nat.le_trans hab hbc⟩

/-- `fastest_df = pd.DataFrame(fastest_laps).sort_values('BestLapTime')`. -/
def rankedBest (results : List ResultRow) (laps : List LapRow) : List (String × Nat) :=
  (fastestLapsList results laps).insertionSort timeLe

/-- One assignment step of the enumerate loop: rows whose `Abbreviation`
matches the ranked entry receive `Position := index + 1` (1-based) and
`Time := BestLapTime`.  `p.1` is the 0-based `enumerate` index. -/
def applyRankRow (p : Nat × (String × Nat)) (r : ResultRow) : ResultRow :=
  if r.Abbreviation = p.2.1 then
    { r with Position := some ((p.1 + 1 : Nat) : ℚ), Time := some p.2.2 }
  else r

/-- The full `for position, (_, lap_row) in enumerate(fastest_df.iterrows(), start=1)`
loop, writing positions and times into `results`. -/
def assignPositions (results : List ResultRow) (ranked : List (String × Nat)) : List ResultRow :=
  ranked.enum.foldl (fun acc p => acc.map (applyRankRow p)) results

/-- Race/Sprint fallback of `get_driver_standings`: use each driver's recorded
position on the final lap.  (`Series.get('Position', 999)` returns the stored
value whenever the laps table carries a `Position` column, which this row
model always does, so the stored — possibly null — value is used.) -/
def raceFallback (results : List ResultRow) (laps : List LapRow) : List ResultRow :=
  let maxLap := ((laps.map (fun l => l.LapNumber)).max?).getD 0
  let finalLaps := laps.filter (fun l => decide (l.LapNumber = maxLap))
  if finalLaps.isEmpty then results
  else
    results.map (fun r =>
      match finalLaps.find? (fun l => decide (l.Driver = r.Abbreviation)) with
      | some l => { r with Position := l.Position }
      | none => r)

/-- `FastF1Extractor.get_driver_standings` after a successful load: if some
upstream row has a non-null `Position`, sort by position; otherwise derive
standings from lap data (race fallback or fastest-lap ranking) and sort. -/
def get_driver_standings (sessionType : String) (results : List ResultRow)
    (laps : List LapRow) : List ResultRow :=
  if results.any (fun r => r.Position.isSome) then
    sortByPosition results
  else if laps.isEmpty then
    sortByDriverNumber results
  else if sessionType = "Race" ∨ sessionType = "Sprint" then
    sortByPosition (raceFallback results laps)
  else
    sortByPosition (assignPositions results (rankedBest results laps))

/-- One output entry of `DataTransformer.transform_session_results`. -/
structure SessionResultEntry where
  Position : ℤ
  Abbreviation : String
  TeamName : String
  TeamLogo : String
  TeamColor : String
  Status : String
  Time : String
  DriverNumber : String
  Points : ℤ
deriving DecidableEq

/-- The per-row body of the `transform_session_results` loop:
`Position` missing becomes the sentinel 999, `Points` missing becomes 0,
present float values are truncated with `int(...)`, the team color is
prefixed with `#` (defaulting to the gray `CCCCCC` when the key is absent). -/
def sessionResultEntry (r : ResultRow) : SessionResultEntry :=
  let team := normalizeTeamName r.TeamName
  { Position := match r.Position with
      | some p => pyInt p
      | none => 999,
    Abbreviation := r.Abbreviation,
    TeamName := team,
    TeamLogo := teamLogoPath team,
    TeamColor := "#" ++ r.TeamColor.getD "CCCCCC",
    Status := r.Status,
    Time := formatTimedelta r.Time,
    DriverNumber := r.DriverNumber,
    Points := match r.Points with
      | some q => pyInt q
      | none => 0 }

/-- Comparison for `sorted(session_results, key=lambda x: x['Position'])`. -/
def entryPosLe (a b : SessionResultEntry) : Prop := a.Position ≤ b.Position

instance : DecidableRel entryPosLe := fun a b =>
  inferInstanceAs (Decidable (a.Position ≤ b.Position))

instance : IsTotal SessionResultEntry entryPosLe := ⟨fun a b => Int.le_total a.Position b.Position⟩

instance : IsTrans SessionResultEntry entryPosLe := ⟨fun _ _ _ hab hbc => Int.le_trans hab hbc⟩

/-- `DataTransformer.transform_session_results`: one entry per standing row,
sorted ascending by the (sentinel-completed) integer position. -/
def transform_session_results (sessionType : String) (results : List ResultRow)
    (laps : List LapRow) : List SessionResultEntry :=
  ((get_driver_standings sessionType results laps).map sessionResultEntry).insertionSort entryPosLe

/-- One output entry of `DataTransformer.transform_podium`. -/
structure PodiumEntry where
  Position : ℤ
  Abbreviation : String
  TeamName : String
  TeamColor : String
  TeamLogo : String
  HeadshotUrl : String
  Status : String
  Time : String
deriving DecidableEq

/-- The entry built for one top-3 row that has a non-null `Position`. -/
def podiumEntry (r : ResultRow) (p : ℚ) : PodiumEntry :=
  let team := normalizeTeamName r.TeamName
  { Position := pyInt p,
    Abbreviation := r.Abbreviation,
    TeamName := team,
    TeamColor := "#" ++ r.TeamColor.getD "CCCCCC",
    TeamLogo := teamLogoPath team,
    HeadshotUrl := headshotUrl r.Abbreviation,
    Status := r.Status,
    Time := formatTimedelta r.Time }

/-- `DataTransformer.transform_podium` as a function of the standings it
reads through `get_driver_standings()`: take the first three rows and skip
every row whose `Position` is missing (NaN). -/
def transform_podium (standings : List ResultRow) : List PodiumEntry :=
  (standings.take 3).filterMap (fun r => r.Position.map (fun p => podiumEntry r p))

/-- Seconds part of the f-string `f"{minutes}:{seconds:06.3f}"`: the seconds
value is below 60, printed with 3 decimal places and zero-padded to width 6.
`rem` is the remainder of the lap time in milliseconds (< 60000). -/
def padSeconds (rem : Nat) : String :=
  let secInt := rem / 1000
  let frac := rem % 1000
  let fracStr :=
    if frac < 10 then "00" ++ toString frac
    else if frac < 100 then "0" ++ toString frac
    else toString frac
  (if secInt < 10 then "0" else "") ++ toString secInt ++ "." ++ fracStr

/-- Lap-time formatting of `transform_lap_chart_data`:
`minutes = int(total_seconds // 60)`, `seconds = total_seconds % 60`,
rendered as `f"{minutes}:{seconds:06.3f}"`.  The lap time is an exact
millisecond count, so the three printed decimals are exact. -/
def formatLapTime (ms : Nat) : String :=
  let minutes := ms / 60000
  let rem := ms % 60000
  toString minutes ++ ":" ++ padSeconds rem

/-- One entry of the `laps` list of `transform_lap_chart_data`. -/
structure LapChartEntry where
  driver : String
  lapNumber : Nat
  lapTime : String
deriving DecidableEq

/-- Output of `DataTransformer.transform_lap_chart_data`. -/
structure LapChartData where
  podium : List String
  laps : List LapChartEntry
deriving DecidableEq

/-- `DataTransformer.transform_lap_chart_data`: the top-3 abbreviations from
the standings (no null filter here) and one formatted entry per lap whose
`LapTime` is non-null. -/
def transform_lap_chart_data (sessionType : String) (results : List ResultRow)
    (laps : List LapRow) : LapChartData :=
  let standings := get_driver_standings sessionType results laps
  { podium := (standings.take 3).map (fun r => r.Abbreviation),
    laps := laps.filterMap (fun l =>
      l.LapTime.map (fun t => ⟨l.Driver, l.LapNumber, formatLapTime t⟩)) }

/-- One telemetry sample of a lap (`get_telemetry().add_distance()`):
cumulative distance along the lap, speed, and track coordinates. -/
structure TelPoint where
  Distance : ℚ
  Speed : ℚ
  X : ℚ
  Y : ℚ
deriving DecidableEq

/-- A telemetry sample tagged with its driver (`tel['Driver'] = abbr`). -/
structure TelRow where
  driver : String
  pt : TelPoint
deriving DecidableEq

/-- `telemetry = pd.concat([tel1, tel2])` after tagging both frames. -/
def mergedTel (d1 d2 : String) (tel1 tel2 : List TelPoint) : List TelRow :=
  tel1.map (fun p => ⟨d1, p⟩) ++ tel2.map (fun p => ⟨d2, p⟩)

/-- `total_distance = telemetry['Distance'].max()` (0 for empty telemetry,
which the source reaches only through its exception handler). -/
def totalDist (tel : List TelRow) : ℚ :=
  ((tel.map (fun r => r.pt.Distance)).max?).getD 0

/-- `num_minisectors = 25`. -/
def numMinisectors : ℕ := 25

/-- `minisector_length = total_distance / num_minisectors`. -/
def msLength (tel : List TelRow) : ℚ := totalDist tel / numMinisectors

/-- `(Distance // minisector_length).astype(int)`: float floor division.
Note that the sample at the maximum distance always receives index 25
(`total // (total/25) = 25` in exact arithmetic). -/
def minisectorOf (L : ℚ) (d : ℚ) : ℤ := ⌊d / L⌋

/-- The telemetry rows of one driver inside one minisector (the filter
`(telemetry['Minisector'] == m) & (telemetry['Driver'] == d)`). -/
def minisectorRows (tel : List TelRow) (L : ℚ) (m : ℤ) (d : String) : List TelRow :=
  tel.filter (fun r => decide (minisectorOf L r.pt.Distance = m ∧ r.driver = d))

/-- `telemetry.groupby(['Minisector', 'Driver'])['Speed'].mean()` for one
group: `none` when the group is empty (no such row in `avg_speed`). -/
def meanSpeed (tel : List TelRow) (L : ℚ) (m : ℤ) (d : String) : Option ℚ :=
  let xs := minisectorRows tel L m d
  if xs.isEmpty then none
  else some (((xs.map (fun r => r.pt.Speed)).sum) / (xs.length : ℚ))

/-- Lexicographic byte-wise string comparison, mirroring how pandas orders
the `Driver` group keys (`groupby` sorts keys ascending). -/
def charsLt : List Char → List Char → Bool
  | [], [] => false
  | [], _ :: _ => true
  | _ :: _, [] => false
  | a :: as, b :: bs =>
    if a.toNat < b.toNat then true
    else if b.toNat < a.toNat then false
    else charsLt as bs

/-- The two compared drivers in `groupby` key order (ascending names). -/
def sortedDrivers (d1 d2 : String) : List String :=
  if charsLt d2.data d1.data then [d2, d1] else [d1, d2]

/-- `avg_speed.loc[avg_speed.groupby('Minisector')['Speed'].idxmax()]` for
one minisector: among the (groupby-ordered) drivers having a mean speed in
the minisector, the first one attaining the maximum.  `idxmax` keeps the
earlier row on ties. -/
def fastestInMinisector (tel : List TelRow) (L : ℚ) (m : ℤ) (ds : List String) :
    Option String :=
  let cands := ds.filterMap (fun d => (meanSpeed tel L m d).map (fun s => (d, s)))
  (cands.foldl (fun best c =>
    match best with
    | none => some c
    | some b => if b.2 < c.2 then some c else some b) none).map (fun p => p.1)

/-- `sorted(fastest_driver['Minisector'].unique())`: the distinct minisector
indices present in the telemetry, ascending. -/
def minisectorsOf (tel : List TelRow) (L : ℚ) : List ℤ :=
  ((tel.map (fun r => minisectorOf L r.pt.Distance)).dedup).insertionSort (fun a b => a ≤ b)

/-- The `[[x, y], ...]` point list of one minisector: the fastest driver's
rows in the minisector, sorted by distance. -/
def minisectorPoints (tel : List TelRow) (L : ℚ) (m : ℤ) (d : String) : List (ℚ × ℚ) :=
  ((minisectorRows tel L m d).insertionSort (fun a b => a.pt.Distance ≤ b.pt.Distance)).map
    (fun r => (r.pt.X, r.pt.Y))

/-- One emitted segment `{fastestDriver, points}`. -/
structure Segment where
  fastestDriver : String
  points : List (ℚ × ℚ)
deriving DecidableEq

/-- Loop state of the minisector walk: `current_driver`, `current_points`,
and the segments emitted so far. -/
structure MergeState where
  cur : Option String
  curPts : List (ℚ × ℚ)
  segs : List Segment
deriving DecidableEq

/-- One iteration of the minisector walk: extend the current segment when the
fastest driver is unchanged, otherwise flush the current segment (when it has
a driver and points) and start a new one. -/
def mergeStep (st : MergeState) (entry : String × List (ℚ × ℚ)) : MergeState :=
  if some entry.1 = st.cur then
    { st with curPts := st.curPts ++ entry.2 }
  else
    match st.cur with
    | some d =>
      if st.curPts.isEmpty then { cur := some entry.1, curPts := entry.2, segs := st.segs }
      else { cur := some entry.1, curPts := entry.2,
             segs := st.segs ++ [{ fastestDriver := d, points := st.curPts }] }
    | none => { cur := some entry.1, curPts := entry.2, segs := st.segs }

/-- The walk over all minisector entries followed by the final flush. -/
def mergeSegments (entries : List (String × List (ℚ × ℚ))) : List Segment :=
  let st := entries.foldl mergeStep { cur := none, curPts := [], segs := [] }
  match st.cur with
  | some d => if st.curPts.isEmpty then st.segs else st.segs ++ [{ fastestDriver := d, points := st.curPts }]
  | none => st.segs

/-- The per-minisector entry list of the walk: for each present minisector in
ascending order, its fastest driver and that driver's point list. -/
def dominanceEntries (d1 d2 : String) (tel : List TelRow) (L : ℚ) :
    List (String × List (ℚ × ℚ)) :=
  (minisectorsOf tel L).filterMap (fun m =>
    (fastestInMinisector tel L m (sortedDrivers d1 d2)).map
      (fun f => (f, minisectorPoints tel L m f)))

/-- Lines 201–256 of `data_transformers.py`: the segment list built from the
two drivers' fastest-lap telemetry. -/
def trackDominanceSegments (d1 d2 : String) (tel1 tel2 : List TelPoint) : List Segment :=
  let tel := mergedTel d1 d2 tel1 tel2
  let L := msLength tel
  mergeSegments (dominanceEntries d1 d2 tel L)

/-- Output of `DataTransformer.transform_track_dominance`. -/
structure TrackDominance where
  drivers : List String
  teamColors : List String
  segments : List Segment
deriving DecidableEq

/-- `DataTransformer.transform_track_dominance`: compare the top 2 classified
finishers.  `telemetryOf` maps a driver number to the distance-indexed
telemetry of that driver's fastest lap (`none` models the no-laps /
telemetry-failure paths, all of which yield `segments = []` while keeping
the driver and color context).  Note the colors are the raw
`TeamColor` values (with the `CCCCCC` absent-key default) without a `#`. -/
def transform_track_dominance (sessionType : String) (results : List ResultRow)
    (laps : List LapRow) (telemetryOf : String → Option (List TelPoint)) : TrackDominance :=
  let top2 := (get_driver_standings sessionType results laps).take 2
  match top2 with
  | [r1, r2] =>
    let d1 := r1.Abbreviation
    let d2 := r2.Abbreviation
    let c1 := r1.TeamColor.getD "CCCCCC"
    let c2 := r2.TeamColor.getD "CCCCCC"
    match telemetryOf r1.DriverNumber, telemetryOf r2.DriverNumber with
    | some t1, some t2 =>
      { drivers := [d1, d2], teamColors := [c1, c2],
        segments := trackDominanceSegments d1 d2 t1 t2 }
    | _, _ => { drivers := [d1, d2], teamColors := [c1, c2], segments := [] }
  | _ => { drivers := [], teamColors := [], segments := [] }

/-- A JSON-like payload value, as handed from the transforms to the
orchestrator's empty-payload filter and the uploader. -/
inductive JsonVal where
  | null : JsonVal
  | str : String → JsonVal
  | num : ℚ → JsonVal
  | bool : Bool → JsonVal
  | arr : List JsonVal → JsonVal
  | obj : List (String × JsonVal) → JsonVal

/-- The structural emptiness check of `process_session` step 4:
`payload is None or (isinstance(payload, (list, dict)) and len(payload) == 0)`. -/
def isEmptyPayload : JsonVal → Bool
  | .null => true
  | .arr xs => xs.isEmpty
  | .obj fs => fs.isEmpty
  | _ => false

/-- The seven data types in the insertion order of `all_data` in
`process_session`. -/
def pipelineDataTypes : List String :=
  ["session_results", "podium", "fastest_lap", "get_session_data",
   "track_dominance", "tyres", "lap_chart_data"]

/-- The per-type empty sentinel installed by the per-transform exception
handlers of `process_session`. -/
def emptySentinel : String → JsonVal
  | "fastest_lap" => .null
  | "get_session_data" => .obj []
  | "track_dominance" =>
    .obj [("drivers", .arr []), ("teamColors", .arr []), ("segments", .arr [])]
  | "lap_chart_data" => .obj [("podium", .arr []), ("laps", .arr [])]
  | _ => .arr []

/-- The running statistics dictionary of `F1DataPipeline`. -/
structure Stats where
  total_sessions : Nat := 0
  successful_sessions : Nat := 0
  failed_sessions : Nat := 0
  skipped_sessions : Nat := 0
  total_data_types : Nat := 0
  failed_data_types : Nat := 0
  pre_2018_warnings : Nat := 0
  sprint_qualifying_sessions : Nat := 0
deriving DecidableEq

/-- Result of one `load_session` call.  `result` is the Python return value:
`some true` / `some false` for the explicit returns, `none` for the implicit
`None` when the retry loop body never runs (`max_retries = 0`).  Returning a
value at all models the documented behaviour that `load_session` never
propagates an exception.  `attempts` counts upstream load attempts and
`sleeps` counts the fixed-delay `time.sleep(retry_delay)` calls between
attempts. -/
structure LoadResult where
  result : Option Bool
  attempts : Nat
  sleeps : Nat
deriving DecidableEq

/-- `FastF1Extractor.load_session`'s retry loop, as a recursion over the
remaining attempts of `range(max_retries)`.  `ok i` tells whether the i-th
attempt (0-based) succeeds or raises.  On the last attempt a failure returns
`False`; on earlier attempts it sleeps and retries. -/
def loadAux (ok : Nat → Bool) : Nat → Nat → LoadResult
  | _, 0 => { result := none, attempts := 0, sleeps := 0 }
  | attempt, 1 =>
    if ok attempt then { result := some true, attempts := 1, sleeps := 0 }
    else { result := some false, attempts := 1, sleeps := 0 }
  | attempt, n + 2 =>
    if ok attempt then { result := some true, attempts := 1, sleeps := 0 }
    else
      let r := loadAux ok (attempt + 1) (n + 1)
      { result := r.result, attempts := r.attempts + 1, sleeps := r.sleeps + 1 }

/-- `load_session(max_retries=3, retry_delay=5)` with the attempt oracle. -/
def load_session (ok : Nat → Bool) (max_retries : Nat) : LoadResult :=
  loadAux ok 0 max_retries

/-- The observable behaviour of one `process_session` call: the returned
boolean, the statistics after the call, and the payload map passed to
`uploader.upload_session` (empty when the call never reaches the upload). -/
structure SessionOutcome where
  returned : Bool
  stats : Stats
  uploaded : List (String × JsonVal)

/-- The collaborator behaviour one `process_session` call observes:
the load-attempt oracle, the outcome of each transform (`none` = the
transform raised and its empty sentinel is substituted), the per-type upload
success flags reported by the uploader, and whether the
`uploader.upload_session` call itself raises (escaping to the top-level
per-session handler). -/
structure SessionRun where
  year : Nat
  grand_prix : String
  session_type : String
  attemptOk : Nat → Bool
  transformOutcome : String → Option JsonVal
  uploadOk : String → Bool
  uploaderRaises : Bool

/-- `F1DataPipeline.process_session`: bump the session counter (and the
pre-2018 / sprint-qualifying informational counters), load with three
retries, build the seven-entry `all_data` map substituting each failed
transform's empty sentinel, filter structurally empty payloads, upload the
rest, and classify the session as skipped, failed, or successful. -/
def process_session (st0 : Stats) (run : SessionRun) : SessionOutcome :=
  let st := { st0 with total_sessions := st0.total_sessions + 1 }
  let st := if run.year < 2018 then
      { st with pre_2018_warnings := st.pre_2018_warnings + 1 } else st
  let st := if run.session_type = "Sprint Qualifying" ∨ run.session_type = "SQ" then
      { st with sprint_qualifying_sessions := st.sprint_qualifying_sessions + 1 } else st
  if (load_session run.attemptOk 3).result ≠ some true then
    { returned := false,
      stats := { st with skipped_sessions := st.skipped_sessions + 1 },
      uploaded := [] }
  else
    let all_data := pipelineDataTypes.map
      (fun dt => (dt, (run.transformOutcome dt).getD (emptySentinel dt)))
    let filtered_data := all_data.filter (fun kv => !(isEmptyPayload kv.2))
    if run.uploaderRaises ∧ ¬ filtered_data.isEmpty then
      { returned := false,
        stats := { st with failed_sessions := st.failed_sessions + 1 },
        uploaded := [] }
    else
      let upload_results := filtered_data.map (fun kv => (kv.1, run.uploadOk kv.1))
      let st := if filtered_data.isEmpty then st
        else
          { st with
            total_data_types := st.total_data_types + upload_results.length,
            failed_data_types :=
              st.failed_data_types + (upload_results.filter (fun kv => !kv.2)).length }
      { returned := true,
        stats := { st with successful_sessions := st.successful_sessions + 1 },
        uploaded := filtered_data }

/-- The per-row residual of the assignment loop of `get_driver_standings`:
folding every enumerated ranked entry over one row (proof device used to
reason about `assignPositions`, which applies the same updates frame-wide). -/
def rowFold (ps : List (Nat × (String × Nat))) (r : ResultRow) : ResultRow :=
  ps.foldl (fun r p => applyRankRow p r) r

/-- Number of result rows whose best lap time is strictly smaller than `t`:
the 0-based rank of a driver with best time `t` when best times are
distinct. -/
def smallerBestCount (results : List ResultRow) (laps : List LapRow) (t : Nat) : Nat :=
  results.countP (fun r =>
    match bestLapTime laps r.Abbreviation with
    | some s => decide (s < t)
    | none => false)

/-- Strict comparison of two groupby mean speeds: the left is present and
strictly larger than the (also present) right.  This is the situation in
which `idxmax` at a minisector is decided in favour of the left driver. -/
def optFaster : Option ℚ → Option ℚ → Prop
  | some sw, some sl => sl < sw
  | _, _ => False

instance : DecidableRel optFaster := fun a b =>
  match a, b with
  | some sw, some sl => inferInstanceAs (Decidable (sl < sw))
  | some _, none => inferInstanceAs (Decidable False)
  | none, some _ => inferInstanceAs (Decidable False)
  | none, none => inferInstanceAs (Decidable False)

/-- Driver `dwin` has the (strictly) higher mean speed than `dlose` in
minisector `m`, both means being defined. -/
def fasterIn (tel : List TelRow) (L : ℚ) (m : ℤ) (dwin dlose : String) : Prop :=
  optFaster (meanSpeed tel L m dwin) (meanSpeed tel L m dlose)

instance (tel : List TelRow) (L : ℚ) (m : ℤ) (dwin dlose : String) :
    Decidable (fasterIn tel L m dwin dlose) :=
  inferInstanceAs (Decidable (optFaster (meanSpeed tel L m dwin) (meanSpeed tel L m dlose)))

/-! ### Helper lemmas -/

/-- The retry loop makes at most as many attempts as remain. -/
theorem loadAux_attempts_le (ok : Nat → Bool) : ∀ a n, (loadAux ok a n).attempts ≤ n := by
  intro a n
  induction n using Nat.strong_induction_on generalizing a with
  | _ n ih =>
    match n with
    | 0 => simp [loadAux]
    | 1 => by_cases h : ok a <;> simp [loadAux, h]
    | n + 2 =>
      by_cases h : ok a
      · simp [loadAux, h]
      · have := ih (n + 1) (by omega) (a + 1)
        simp only [loadAux, h]
        simp only [Bool.false_eq_true, if_false]
        omega

/-- When every remaining attempt fails, the loop returns `False` after
exactly `n` attempts and `n - 1` sleeps. -/
theorem loadAux_all_fail (ok : Nat → Bool) :
    ∀ a n, 0 < n → (∀ i, a ≤ i → i < a + n → ok i = false) →
      loadAux ok a n = { result := some false, attempts := n, sleeps := n - 1 } := by
  intro a n
  induction n using Nat.strong_induction_on generalizing a with
  | _ n ih =>
    match n with
    | 0 => intro h; omega
    | 1 =>
      intro _ hfail
      have h0 : ok a = false := hfail a (le_refl a) (by omega)
      simp [loadAux, h0]
    | n + 2 =>
      intro _ hfail
      have h0 : ok a = false := hfail a (le_refl a) (by omega)
      have hrec := ih (n + 1) (by omega) (a + 1) (by omega)
        (fun i hi1 hi2 => hfail i (by omega) (by omega))
      simp [loadAux, h0, hrec]

/-- `load_session` with all attempts failing: returns `False`,
`max_retries` attempts, `max_retries - 1` sleeps. -/
theorem load_session_all_fail (ok : Nat → Bool) (mr : Nat) (hmr : 0 < mr)
    (hfail : ∀ i, i < mr → ok i = false) :
    load_session ok mr = { result := some false, attempts := mr, sleeps := mr - 1 } :=
  loadAux_all_fail ok 0 mr hmr (fun i _ hi => hfail i (by omega))

/-! ### C3 -/

/-- C3: for every loaded session whose upstream result set contains at least
one row with a non-null `Position`, `get_driver_standings` returns exactly
the upstream result rows — a permutation, so no row is added, removed, or
modified — arranged ascending by the `Position` key (missing positions
last). -/
theorem claim3_standings_sorted_unmodified (sessionType : String)
    (results : List ResultRow) (laps : List LapRow)
    (h : results.any (fun r => r.Position.isSome) = true) :
    List.Perm (get_driver_standings sessionType results laps) results ∧
      List.Sorted posLe (get_driver_standings sessionType results laps) := by
  unfold get_driver_standings
  simp only [h, if_true, sortByPosition]
  exact ⟨List.perm_insertionSort posLe results, List.sorted_insertionSort posLe results⟩

/-- Concrete two-row session for the C3 witness. -/
def resultsC3 : List ResultRow :=
  [{ DriverNumber := "44", Abbreviation := "HAM", TeamName := "Mercedes",
     TeamColor := some "27F4D2", Position := some 2, Points := some 18,
     Status := "Finished", Time := some 5400000 },
   { DriverNumber := "1", Abbreviation := "VER", TeamName := "Red Bull Racing",
     TeamColor := some "3671C6", Position := some 1, Points := some 25,
     Status := "Finished", Time := some 5395000 }]

/-- Witness for C3: the hypothesis holds and the theorem applies at a
concrete two-row session. -/
theorem claim3_witness :
    resultsC3.any (fun r => r.Position.isSome) = true ∧
      (List.Perm (get_driver_standings "Race" resultsC3 []) resultsC3 ∧
        List.Sorted posLe (get_driver_standings "Race" resultsC3 [])) :=
  ⟨by decide, claim3_standings_sorted_unmodified "Race" resultsC3 [] (by decide)⟩

/-! ### C5 -/

/-- C5: `load_session` makes at most `max_retries` attempts, sleeping the
fixed delay between consecutive attempts; when every attempt raises it
returns `False` (a value, never an exception) after exactly `max_retries`
attempts and `max_retries - 1` sleeps, and in that case `process_session`
increments exactly the skipped-session counter (besides the total) and
returns `false` without uploading anything. -/
theorem claim5_load_retries_then_skip (ok : Nat → Bool) (mr : Nat)
    (st : Stats) (run : SessionRun)
    (hmr : 0 < mr) (hfail : ∀ i, i < mr → ok i = false)
    (hrunfail : ∀ i, i < 3 → run.attemptOk i = false) :
    (∀ okAny mrAny, (load_session okAny mrAny).attempts ≤ mrAny) ∧
    load_session ok mr = { result := some false, attempts := mr, sleeps := mr - 1 } ∧
    (process_session st run).returned = false ∧
    (process_session st run).uploaded = [] ∧
    (process_session st run).stats.skipped_sessions = st.skipped_sessions + 1 ∧
    (process_session st run).stats.total_sessions = st.total_sessions + 1 ∧
    (process_session st run).stats.failed_sessions = st.failed_sessions ∧
    (process_session st run).stats.successful_sessions = st.successful_sessions := by
  have hload : load_session run.attemptOk 3 =
      { result := some false, attempts := 3, sleeps := 2 } :=
    load_session_all_fail run.attemptOk 3 (by omega) hrunfail
  have hcond : (load_session run.attemptOk 3).result ≠ some true := by
    rw [hload]; simp
  refine ⟨fun okAny mrAny => loadAux_attempts_le okAny 0 mrAny,
    load_session_all_fail ok mr hmr hfail, ?_⟩
  unfold process_session
  simp only [hcond, if_true, ne_eq, not_false_eq_true, if_pos]
  by_cases h1 : run.year < 2018 <;>
    by_cases h2 : run.session_type = "Sprint Qualifying" ∨ run.session_type = "SQ" <;>
      simp [h1, h2]

/-- Concrete all-failing run for the C5 witness. -/
def runC5 : SessionRun :=
  { year := 2024, grand_prix := "Monaco Grand Prix", session_type := "Race",
    attemptOk := fun _ => false,
    transformOutcome := fun _ => none,
    uploadOk := fun _ => true,
    uploaderRaises := false }

/-- Witness for C5: the hypotheses hold and the theorem applies at a
concrete all-attempts-fail run (three failing attempts, skipped counter
goes from 0 to 1). -/
theorem claim5_witness :
    (0 < 3 ∧ (∀ i, i < 3 → (fun _ : Nat => false) i = false) ∧
      (∀ i, i < 3 → runC5.attemptOk i = false)) ∧
    ((∀ okAny mrAny, (load_session okAny mrAny).attempts ≤ mrAny) ∧
     load_session (fun _ => false) 3 = { result := some false, attempts := 3, sleeps := 2 } ∧
     (process_session {} runC5).returned = false ∧
     (process_session {} runC5).uploaded = [] ∧
     (process_session {} runC5).stats.skipped_sessions = Stats.skipped_sessions {} + 1 ∧
     (process_session {} runC5).stats.total_sessions = Stats.total_sessions {} + 1 ∧
     (process_session {} runC5).stats.failed_sessions = Stats.failed_sessions {} ∧
     (process_session {} runC5).stats.successful_sessions = Stats.successful_sessions {}) :=
  ⟨⟨by omega, fun i _ => rfl, fun i _ => rfl⟩,
    claim5_load_retries_then_skip (fun _ => false) 3 {} runC5 (by omega)
      (fun i _ => rfl) (fun i _ => rfl)⟩

/-! ### C10 -/

/-- C10: every `process_session` call increments `total_sessions` by exactly
one and exactly one of `skipped_sessions`, `failed_sessions`,
`successful_sessions` by exactly one (the other two unchanged); moreover,
whenever the load succeeds and the upload call does not raise — regardless
of how many transforms failed and of what was uploaded —
`successful_sessions` is the counter incremented and the call returns
`true`. -/
theorem claim10_counter_invariant (st : Stats) (run : SessionRun) :
    (process_session st run).stats.total_sessions = st.total_sessions + 1 ∧
    (((process_session st run).stats.skipped_sessions = st.skipped_sessions + 1 ∧
      (process_session st run).stats.failed_sessions = st.failed_sessions ∧
      (process_session st run).stats.successful_sessions = st.successful_sessions) ∨
     ((process_session st run).stats.failed_sessions = st.failed_sessions + 1 ∧
      (process_session st run).stats.skipped_sessions = st.skipped_sessions ∧
      (process_session st run).stats.successful_sessions = st.successful_sessions) ∨
     ((process_session st run).stats.successful_sessions = st.successful_sessions + 1 ∧
      (process_session st run).stats.skipped_sessions = st.skipped_sessions ∧
      (process_session st run).stats.failed_sessions = st.failed_sessions)) ∧
    ((load_session run.attemptOk 3).result = some true ∧ run.uploaderRaises = false →
      (process_session st run).stats.successful_sessions = st.successful_sessions + 1 ∧
      (process_session st run).returned = true) := by
  unfold process_session
  by_cases h1 : run.year < 2018 <;>
    by_cases h2 : run.session_type = "Sprint Qualifying" ∨ run.session_type = "SQ" <;>
      by_cases h3 : (load_session run.attemptOk 3).result = some true <;>
        by_cases h4 : run.uploaderRaises <;>
          simp [h1, h2, h3, h4] <;>
            split <;> simp_all

/-- Concrete successful run for the C10 witness (all transforms fail, load
succeeds, uploader reports success): the session still counts as
successful. -/
def runC10 : SessionRun :=
  { year := 2022, grand_prix := "Monza", session_type := "Qualifying",
    attemptOk := fun _ => true,
    transformOutcome := fun _ => none,
    uploadOk := fun _ => true,
    uploaderRaises := false }

/-- Witness for C10 at a concrete run whose transforms all failed. -/
theorem claim10_witness :
    ((process_session {} runC10).stats.total_sessions = Stats.total_sessions {} + 1 ∧
     (((process_session {} runC10).stats.skipped_sessions = Stats.skipped_sessions {} + 1 ∧
       (process_session {} runC10).stats.failed_sessions = Stats.failed_sessions {} ∧
       (process_session {} runC10).stats.successful_sessions = Stats.successful_sessions {}) ∨
      ((process_session {} runC10).stats.failed_sessions = Stats.failed_sessions {} + 1 ∧
       (process_session {} runC10).stats.skipped_sessions = Stats.skipped_sessions {} ∧
       (process_session {} runC10).stats.successful_sessions = Stats.successful_sessions {}) ∨
      ((process_session {} runC10).stats.successful_sessions = Stats.successful_sessions {} + 1 ∧
       (process_session {} runC10).stats.skipped_sessions = Stats.skipped_sessions {} ∧
       (process_session {} runC10).stats.failed_sessions = Stats.failed_sessions {})) ∧
     ((load_session runC10.attemptOk 3).result = some true ∧ runC10.uploaderRaises = false →
       (process_session {} runC10).stats.successful_sessions = Stats.successful_sessions {} + 1 ∧
       (process_session {} runC10).returned = true)) ∧
    (load_session runC10.attemptOk 3).result = some true ∧
    (∀ dt, runC10.transformOutcome dt = none) :=
  ⟨claim10_counter_invariant {} runC10, by decide, fun _ => rfl⟩

/-! ### C1 -/

/-- C1 (amended): when the track-dominance transform raises while the other
six transforms succeed with non-empty outputs (and the load and upload
boundaries behave normally), the other six outputs are passed to the
uploader unchanged and `track_dominance` is replaced by its empty sentinel
`{'drivers': [], 'teamColors': [], 'segments': []}`; but since that sentinel
is a mapping with three keys — not null, not an empty list, not an empty
mapping — the pre-upload empty-payload filter does NOT drop it, and the
sentinel is uploaded along with the other six payloads. -/
theorem claim1_sentinel_is_uploaded (st : Stats) (run : SessionRun)
    (v1 v2 v3 v4 v6 v7 : JsonVal)
    (hload : run.attemptOk 0 = true)
    (htd : run.transformOutcome "track_dominance" = none)
    (h1 : run.transformOutcome "session_results" = some v1)
    (he1 : isEmptyPayload v1 = false)
    (h2 : run.transformOutcome "podium" = some v2)
    (he2 : isEmptyPayload v2 = false)
    (h3 : run.transformOutcome "fastest_lap" = some v3)
    (he3 : isEmptyPayload v3 = false)
    (h4 : run.transformOutcome "get_session_data" = some v4)
    (he4 : isEmptyPayload v4 = false)
    (h6 : run.transformOutcome "tyres" = some v6)
    (he6 : isEmptyPayload v6 = false)
    (h7 : run.transformOutcome "lap_chart_data" = some v7)
    (he7 : isEmptyPayload v7 = false)
    (hup : run.uploaderRaises = false) :
    (process_session st run).uploaded =
      [("session_results", v1), ("podium", v2), ("fastest_lap", v3),
       ("get_session_data", v4),
       ("track_dominance", emptySentinel "track_dominance"),
       ("tyres", v6), ("lap_chart_data", v7)] ∧
    isEmptyPayload (emptySentinel "track_dominance") = false ∧
    (process_session st run).returned = true := by
  have hloadres : (load_session run.attemptOk 3).result = some true := by
    simp [load_session, loadAux, hload]
  unfold process_session
  simp [hloadres, pipelineDataTypes, h1, h2, h3, h4, h6, h7, htd,
    he1, he2, he3, he4, he6, he7, emptySentinel, isEmptyPayload, hup]
  exact ⟨he1, he2, he3, he4, he6, he7⟩

/-- Concrete run for C1: the track-dominance transform raises, the other six
succeed with non-empty payloads. -/
def runC1 : SessionRun :=
  { year := 2023, grand_prix := "Monaco Grand Prix", session_type := "Race",
    attemptOk := fun _ => true,
    transformOutcome := fun dt =>
      if dt = "track_dominance" then none
      else if dt = "fastest_lap" then some (.obj [("Driver", .str "VER")])
      else if dt = "get_session_data" then some (.obj [("Country", .str "Monaco")])
      else if dt = "lap_chart_data" then
        some (.obj [("podium", .arr [.str "VER"]), ("laps", .arr [])])
      else some (.arr [.str "row"]),
    uploadOk := fun _ => true,
    uploaderRaises := false }

/-- Counterexample to C1 as stated: at a session where only the
track-dominance transform raises, the upload set handed to the uploader
contains all seven data types — `track_dominance` (carrying its empty
sentinel) is NOT excluded by the pre-upload empty-payload filter, because
the sentinel is a three-key mapping, which is not structurally empty. -/
theorem claim1_counterexample :
    ((process_session {} runC1).uploaded.map Prod.fst) = pipelineDataTypes ∧
    "track_dominance" ∈ ((process_session {} runC1).uploaded.map Prod.fst) ∧
    isEmptyPayload (emptySentinel "track_dominance") = false := by
  refine ⟨rfl, ?_, rfl⟩
  rw [(rfl : ((process_session {} runC1).uploaded.map Prod.fst) = pipelineDataTypes)]
  decide

/-- Witness for the amended C1 theorem at the concrete run. -/
theorem claim1_witness :
    (runC1.attemptOk 0 = true ∧
     runC1.transformOutcome "track_dominance" = none ∧
     runC1.uploaderRaises = false) ∧
    ((process_session {} runC1).uploaded =
      [("session_results", .arr [.str "row"]), ("podium", .arr [.str "row"]),
       ("fastest_lap", .obj [("Driver", .str "VER")]),
       ("get_session_data", .obj [("Country", .str "Monaco")]),
       ("track_dominance", emptySentinel "track_dominance"),
       ("tyres", .arr [.str "row"]),
       ("lap_chart_data", .obj [("podium", .arr [.str "VER"]), ("laps", .arr [])])] ∧
     isEmptyPayload (emptySentinel "track_dominance") = false ∧
     (process_session {} runC1).returned = true) :=
  ⟨⟨rfl, rfl, rfl⟩,
    claim1_sentinel_is_uploaded {} runC1
      (.arr [.str "row"]) (.arr [.str "row"]) (.obj [("Driver", .str "VER")])
      (.obj [("Country", .str "Monaco")]) (.arr [.str "row"])
      (.obj [("podium", .arr [.str "VER"]), ("laps", .arr [])])
      rfl rfl rfl rfl rfl rfl rfl rfl rfl rfl rfl rfl rfl rfl rfl⟩

/-! ### C9 -/

/-- C9: every entry of `transform_session_results` is the image of a
standings row, and the `Points` field of such an image is the
truncation-toward-zero (`int(...)`) of the upstream float when present —
so the fractional award 12.5 becomes 12 — and 0 when missing. -/
theorem claim9_points_truncation (sessionType : String) (results : List ResultRow)
    (laps : List LapRow) :
    (∀ e ∈ transform_session_results sessionType results laps,
      ∃ r ∈ get_driver_standings sessionType results laps, e = sessionResultEntry r) ∧
    (∀ r : ResultRow, ∀ q : ℚ, r.Points = some q → (sessionResultEntry r).Points = pyInt q) ∧
    (∀ r : ResultRow, r.Points = none → (sessionResultEntry r).Points = 0) ∧
    pyInt (25 / 2 : ℚ) = 12 ∧ pyInt (-(25 / 2) : ℚ) = -12 := by
  refine ⟨?_, ?_, ?_, by with_unfolding_all rfl, by with_unfolding_all rfl⟩
  · intro e he
    have hmem : e ∈ (get_driver_standings sessionType results laps).map sessionResultEntry :=
      (List.perm_insertionSort entryPosLe _).mem_iff.mp he
    obtain ⟨r, hr, rfl⟩ := List.mem_map.mp hmem
    exact ⟨r, hr, rfl⟩
  · intro r q hq
    simp [sessionResultEntry, hq]
  · intro r hq
    simp [sessionResultEntry, hq]

/-- A standings row carrying a fractional points award of 12.5. -/
def rowC9 : ResultRow :=
  { DriverNumber := "4", Abbreviation := "NOR", TeamName := "McLaren",
    TeamColor := some "FF8000", Position := some 1, Points := some (25 / 2),
    Status := "Finished", Time := some 5400000 }

/-- Witness for C9: a 12.5-point row is truncated to 12 points. -/
theorem claim9_witness :
    rowC9.Points = some (25 / 2 : ℚ) ∧
    (sessionResultEntry rowC9).Points = pyInt (25 / 2 : ℚ) ∧
    (sessionResultEntry rowC9).Points = 12 :=
  ⟨rfl, (claim9_points_truncation "Race" [rowC9] []).2.1 rowC9 (25 / 2) rfl,
    by with_unfolding_all rfl⟩

/-! ### C7 -/

/-- Length of the filtered lap-chart entry list: one entry per lap with a
non-null lap time. -/
theorem length_filterMap_lapTime (laps : List LapRow) (g : LapRow → Nat → LapChartEntry) :
    (laps.filterMap (fun l => l.LapTime.map (g l))).length =
      laps.countP (fun l => l.LapTime.isSome) := by
  induction laps with
  | nil => rfl
  | cons x xs ih =>
    cases h : x.LapTime <;> simp [List.filterMap_cons, h, List.countP_cons, ih]

/-- C7: `transform_lap_chart_data` includes exactly the laps with a non-null
lap time, each formatted as minutes:seconds.milliseconds with the seconds
zero-padded to width 6 and 3 decimals; in particular 90.456 s renders as
"1:30.456" and 5.004 s renders as "0:05.004". -/
theorem claim7_lap_chart_format_and_filter (sessionType : String)
    (results : List ResultRow) (laps : List LapRow) :
    formatLapTime 90456 = "1:30.456" ∧
    formatLapTime 5004 = "0:05.004" ∧
    (∀ e ∈ (transform_lap_chart_data sessionType results laps).laps,
      ∃ l ∈ laps, ∃ t, l.LapTime = some t ∧
        e = { driver := l.Driver, lapNumber := l.LapNumber, lapTime := formatLapTime t }) ∧
    (transform_lap_chart_data sessionType results laps).laps.length =
      laps.countP (fun l => l.LapTime.isSome) := by
  refine ⟨by decide, by decide, ?_, length_filterMap_lapTime laps _⟩
  intro e he
  simp only [transform_lap_chart_data, List.mem_filterMap] at he
  obtain ⟨l, hl, hfl⟩ := he
  rw [Option.map_eq_some'] at hfl
  obtain ⟨t, ht, rfl⟩ := hfl
  exact ⟨l, hl, t, ht, rfl⟩

/-- A lap list with one valid and one null lap time. -/
def lapsC7 : List LapRow :=
  [{ Driver := "VER", DriverNumber := "1", LapNumber := 1, LapTime := some 90456,
     Compound := some "SOFT", Position := some 1 },
   { Driver := "VER", DriverNumber := "1", LapNumber := 2, LapTime := none,
     Compound := some "SOFT", Position := some 1 }]

/-- Witness for C7: the formatting facts and the filter at a concrete lap
list with one valid and one invalid lap. -/
theorem claim7_witness :
    (formatLapTime 90456 = "1:30.456" ∧
     formatLapTime 5004 = "0:05.004" ∧
     (∀ e ∈ (transform_lap_chart_data "Race" [] lapsC7).laps,
       ∃ l ∈ lapsC7, ∃ t, l.LapTime = some t ∧
         e = { driver := l.Driver, lapNumber := l.LapNumber, lapTime := formatLapTime t }) ∧
     (transform_lap_chart_data "Race" [] lapsC7).laps.length =
       lapsC7.countP (fun l => l.LapTime.isSome)) ∧
    lapsC7.countP (fun l => l.LapTime.isSome) = 1 :=
  ⟨claim7_lap_chart_format_and_filter "Race" [] lapsC7, by decide⟩

/-! ### C6 -/

/-- Length of the podium: one entry per top-3 row with a non-null position. -/
theorem transform_podium_length (standings : List ResultRow) :
    (transform_podium standings).length =
      (standings.take 3).countP (fun r => r.Position.isSome) := by
  unfold transform_podium
  generalize standings.take 3 = l
  induction l with
  | nil => rfl
  | cons x xs ih =>
    cases h : x.Position <;> simp [List.filterMap_cons, h, List.countP_cons, ih]

/-- A standings row whose `Position` already carries the missing-position
sentinel 999 (the value `get_driver_standings` itself can store via the
race-fallback `Series.get('Position', 999)` default, and the value
`transform_session_results` uses for missing positions). -/
def sentinelStandingsC6 : List ResultRow :=
  [{ DriverNumber := "1", Abbreviation := "VER", TeamName := "Red Bull Racing",
     TeamColor := some "3671C6", Position := some 999, Points := some 0,
     Status := "Finished", Time := none }]

/-- Counterexample to C6 as stated: `transform_podium` only skips rows whose
`Position` is null; a row carrying the numeric sentinel 999 is kept and its
sentinel position appears in the podium output, so the output is not
restricted to non-sentinel positions. -/
theorem claim6_counterexample :
    (transform_podium sentinelStandingsC6).length = 1 ∧
    ∃ e ∈ transform_podium sentinelStandingsC6, e.Position = 999 := by
  with_unfolding_all decide

/-- C6 (amended): `transform_podium` returns at most 3 rows, exactly one per
top-3 standings row with a non-null `Position`; every returned entry is
built from such a row (rows with a null Position are skipped, not
defaulted).  A numeric sentinel position (999) is not skipped. -/
theorem claim6_podium_amended (standings : List ResultRow) :
    (transform_podium standings).length ≤ 3 ∧
    (transform_podium standings).length =
      (standings.take 3).countP (fun r => r.Position.isSome) ∧
    (∀ e ∈ transform_podium standings,
      ∃ r ∈ standings.take 3, ∃ p : ℚ, r.Position = some p ∧ e = podiumEntry r p) := by
  refine ⟨?_, transform_podium_length standings, ?_⟩
  · calc (transform_podium standings).length
        = (standings.take 3).countP (fun r => r.Position.isSome) :=
          transform_podium_length standings
      _ ≤ (standings.take 3).length := List.countP_le_length _
      _ ≤ 3 := standings.length_take_le 3
  · intro e he
    simp only [transform_podium, List.mem_filterMap] at he
    obtain ⟨r, hr, hfr⟩ := he
    rw [Option.map_eq_some'] at hfr
    obtain ⟨p, hp, rfl⟩ := hfr
    exact ⟨r, hr, p, hp, rfl⟩

/-- Four-row standings (one with a null position) for the C6 witness. -/
def standingsC6 : List ResultRow :=
  [{ DriverNumber := "1", Abbreviation := "VER", TeamName := "Red Bull Racing",
     TeamColor := some "3671C6", Position := some 1, Points := some 25,
     Status := "Finished", Time := some 5395000 },
   { DriverNumber := "44", Abbreviation := "HAM", TeamName := "Mercedes",
     TeamColor := some "27F4D2", Position := none, Points := some 0,
     Status := "DNF", Time := none },
   { DriverNumber := "16", Abbreviation := "LEC", TeamName := "Ferrari",
     TeamColor := some "E8002D", Position := some 2, Points := some 18,
     Status := "Finished", Time := some 5400000 },
   { DriverNumber := "4", Abbreviation := "NOR", TeamName := "McLaren",
     TeamColor := some "FF8000", Position := some 3, Points := some 15,
     Status := "Finished", Time := some 5401000 }]

/-- Witness for the amended C6 at a concrete standings list whose top 3
contains a null-position row: that row is skipped and only 2 entries
remain. -/
theorem claim6_witness :
    ((transform_podium standingsC6).length ≤ 3 ∧
     (transform_podium standingsC6).length =
       (standingsC6.take 3).countP (fun r => r.Position.isSome) ∧
     (∀ e ∈ transform_podium standingsC6,
       ∃ r ∈ standingsC6.take 3, ∃ p : ℚ, r.Position = some p ∧ e = podiumEntry r p)) ∧
    (standingsC6.take 3).countP (fun r => r.Position.isSome) = 2 :=
  ⟨claim6_podium_amended standingsC6, by decide⟩

/-! ### C8 -/

/-- C8 (amended): `transform_session_results` and `transform_podium` render
the team color as `"#"` followed by the raw color (with the gray `CCCCCC`
default when the key is absent), but `transform_track_dominance` passes the
two raw color values through without the `#` prefix (still defaulting to
`CCCCCC`). -/
theorem claim8_team_color_rendering (r : ResultRow) (p : ℚ) (sessionType : String)
    (results : List ResultRow) (laps : List LapRow)
    (telemetryOf : String → Option (List TelPoint)) (r1 r2 : ResultRow)
    (htop : (get_driver_standings sessionType results laps).take 2 = [r1, r2]) :
    (sessionResultEntry r).TeamColor = "#" ++ r.TeamColor.getD "CCCCCC" ∧
    (podiumEntry r p).TeamColor = "#" ++ r.TeamColor.getD "CCCCCC" ∧
    (transform_track_dominance sessionType results laps telemetryOf).teamColors =
      [r1.TeamColor.getD "CCCCCC", r2.TeamColor.getD "CCCCCC"] := by
  refine ⟨rfl, rfl, ?_⟩
  unfold transform_track_dominance
  rw [htop]
  cases h1 : telemetryOf r1.DriverNumber <;> cases h2 : telemetryOf r2.DriverNumber <;>
    simp [h1, h2]

/-- Two-row session for the C8 counterexample and witness. -/
def resultsC8 : List ResultRow :=
  [{ DriverNumber := "1", Abbreviation := "VER", TeamName := "Red Bull Racing",
     TeamColor := some "112233", Position := some 1, Points := none,
     Status := "Finished", Time := none },
   { DriverNumber := "44", Abbreviation := "HAM", TeamName := "Mercedes",
     TeamColor := some "445566", Position := some 2, Points := none,
     Status := "Finished", Time := none }]

set_option maxRecDepth 4000 in
/-- Counterexample to C8 as stated: the track-dominance output carries the
team colors without the `#` prefix — its first color is the raw `"112233"`,
whose first character is not `'#'` — so not every transform output renders
team colors as `'#RRGGBB'` strings. -/
theorem claim8_counterexample :
    (transform_track_dominance "Race" resultsC8 [] (fun _ => none)).teamColors =
      ["112233", "445566"] ∧
    ("112233").data.head? ≠ some '#' ∧
    (sessionResultEntry (resultsC8.get ⟨0, by decide⟩)).TeamColor = "#112233" := by
  refine ⟨?_, by decide, by with_unfolding_all rfl⟩
  with_unfolding_all decide

set_option maxRecDepth 4000 in
/-- Witness for the amended C8 at the concrete two-row session. -/
theorem claim8_witness :
    ((get_driver_standings "Race" resultsC8 []).take 2 =
      [resultsC8.get ⟨0, by decide⟩, resultsC8.get ⟨1, by decide⟩]) ∧
    ((sessionResultEntry (resultsC8.get ⟨0, by decide⟩)).TeamColor =
       "#" ++ (resultsC8.get ⟨0, by decide⟩).TeamColor.getD "CCCCCC" ∧
     (podiumEntry (resultsC8.get ⟨0, by decide⟩) 1).TeamColor =
       "#" ++ (resultsC8.get ⟨0, by decide⟩).TeamColor.getD "CCCCCC" ∧
     (transform_track_dominance "Race" resultsC8 [] (fun _ => none)).teamColors =
       [(resultsC8.get ⟨0, by decide⟩).TeamColor.getD "CCCCCC",
        (resultsC8.get ⟨1, by decide⟩).TeamColor.getD "CCCCCC"]) :=
  ⟨by with_unfolding_all decide,
    claim8_team_color_rendering (resultsC8.get ⟨0, by decide⟩) 1 "Race" resultsC8 []
      (fun _ => none) (resultsC8.get ⟨0, by decide⟩) (resultsC8.get ⟨1, by decide⟩)
      (by with_unfolding_all decide)⟩

/-! ### C2 -/

/-- Applying the whole assignment loop to the frame equals applying the
entry folds row by row. -/
theorem foldl_map_applyRank (ps : List (Nat × (String × Nat))) :
    ∀ rs : List ResultRow,
      ps.foldl (fun acc p => acc.map (applyRankRow p)) rs = rs.map (rowFold ps) := by
  induction ps with
  | nil =>
    intro rs
    have : rs.map (rowFold []) = rs.map (fun r => r) := rfl
    simp [this]
  | cons p ps ih =>
    intro rs
    simp only [List.foldl_cons]
    rw [ih, List.map_map]
    rfl

/-- `assignPositions` acts row by row. -/
theorem assignPositions_eq_map (results : List ResultRow) (ranked : List (String × Nat)) :
    assignPositions results ranked = results.map (rowFold ranked.enum) :=
  foldl_map_applyRank ranked.enum results

/-- A row matched by no entry is left unchanged. -/
theorem rowFold_no_match (ps : List (Nat × (String × Nat))) (r : ResultRow)
    (h : ∀ p ∈ ps, p.2.1 ≠ r.Abbreviation) : rowFold ps r = r := by
  induction ps with
  | nil => rfl
  | cons p ps ih =>
    have hp : r.Abbreviation ≠ p.2.1 := fun he => h p (List.mem_cons_self p ps) he.symm
    have hstep : applyRankRow p r = r := by simp [applyRankRow, hp]
    calc rowFold (p :: ps) r = rowFold ps (applyRankRow p r) := rfl
      _ = rowFold ps r := by rw [hstep]
      _ = r := ih (fun q hq => h q (List.mem_cons_of_mem p hq))

/-- The assignment loop never changes a row's `Abbreviation`. -/
theorem rowFold_abbreviation (ps : List (Nat × (String × Nat))) (r : ResultRow) :
    (rowFold ps r).Abbreviation = r.Abbreviation := by
  induction ps generalizing r with
  | nil => rfl
  | cons p ps ih =>
    have : (applyRankRow p r).Abbreviation = r.Abbreviation := by
      unfold applyRankRow
      split <;> rfl
    calc (rowFold (p :: ps) r).Abbreviation
        = (rowFold ps (applyRankRow p r)).Abbreviation := rfl
      _ = (applyRankRow p r).Abbreviation := ih _
      _ = r.Abbreviation := this

/-- A row matched by exactly one entry `(i, (a, t))` receives
`Position := i + 1` and `Time := t`. -/
theorem rowFold_single_match (ps₁ ps₂ : List (Nat × (String × Nat)))
    (i : Nat) (a : String) (t : Nat) (r : ResultRow)
    (hr : r.Abbreviation = a)
    (h₁ : ∀ p ∈ ps₁, p.2.1 ≠ a) (h₂ : ∀ p ∈ ps₂, p.2.1 ≠ a) :
    rowFold (ps₁ ++ (i, (a, t)) :: ps₂) r =
      { r with Position := some ((i + 1 : Nat) : ℚ), Time := some t } := by
  have hsplit : rowFold (ps₁ ++ (i, (a, t)) :: ps₂) r =
      rowFold ps₂ (applyRankRow (i, (a, t)) (rowFold ps₁ r)) := by
    unfold rowFold
    rw [List.foldl_append]
    rfl
  rw [hsplit, rowFold_no_match ps₁ r (fun p hp he => h₁ p hp (he.trans hr))]
  have happly : applyRankRow (i, (a, t)) r =
      { r with Position := some ((i + 1 : Nat) : ℚ), Time := some t } := by
    simp [applyRankRow, hr]
  rw [happly]
  exact rowFold_no_match ps₂ _ (fun p hp he => h₂ p hp (he.trans hr))

/-- The driver names of `fastest_laps` form a sublist of the frame's
abbreviations (one entry per row having a best time, in frame order). -/
theorem fastestLapsList_fst_sublist (results : List ResultRow) (laps : List LapRow) :
    List.Sublist ((fastestLapsList results laps).map Prod.fst)
      (results.map (fun r => r.Abbreviation)) := by
  induction results with
  | nil => simp [fastestLapsList]
  | cons r rs ih =>
    unfold fastestLapsList at ih ⊢
    cases h : bestLapTime laps r.Abbreviation <;>
      simp only [List.filterMap_cons, h, Option.map_none', Option.map_some', List.map_cons]
    · exact ih.cons r.Abbreviation
    · exact ih.cons₂ r.Abbreviation

/-- Membership direction: a row with a best time contributes its entry. -/
theorem mem_fastestLapsList (results : List ResultRow) (laps : List LapRow)
    (r : ResultRow) (t : Nat) (hr : r ∈ results)
    (ht : bestLapTime laps r.Abbreviation = some t) :
    (r.Abbreviation, t) ∈ fastestLapsList results laps :=
  List.mem_filterMap.mpr ⟨r, hr, by simp [ht]⟩

/-- Every entry of `fastest_laps` records an actual best time of its
driver. -/
theorem fastestLapsList_best (results : List ResultRow) (laps : List LapRow)
    (a : String) (t : Nat) (h : (a, t) ∈ fastestLapsList results laps) :
    bestLapTime laps a = some t := by
  obtain ⟨r, _, heq⟩ := List.mem_filterMap.mp h
  rw [Option.map_eq_some'] at heq
  obtain ⟨s, hs, heq2⟩ := heq
  have ha : r.Abbreviation = a := congrArg Prod.fst heq2
  have hts : s = t := congrArg Prod.snd heq2
  rw [← ha, hs, hts]

/-- Counting smaller best times over `fastest_laps` equals counting them
over the result rows. -/
theorem countP_fastestLapsList (results : List ResultRow) (laps : List LapRow) (t : Nat) :
    (fastestLapsList results laps).countP (fun q => decide (q.2 < t)) =
      smallerBestCount results laps t := by
  unfold fastestLapsList smallerBestCount
  induction results with
  | nil => rfl
  | cons r rs ih =>
    cases h : bestLapTime laps r.Abbreviation with
    | none =>
      simp only [List.filterMap_cons, h, Option.map_none', List.countP_cons, ih]
      simp
    | some s =>
      simp only [List.filterMap_cons, h, Option.map_some', List.countP_cons, ih]

/-- In a time-sorted, time-distinct list, the number of entries with a
strictly smaller time than a present entry is that entry's index. -/
theorem sorted_distinct_index_count (u v : List (String × Nat)) (a : String) (t : Nat)
    (hsort : List.Pairwise timeLe (u ++ (a, t) :: v))
    (hdist : List.Pairwise (fun p q => p.2 ≠ q.2) (u ++ (a, t) :: v)) :
    (u ++ (a, t) :: v).countP (fun q => decide (q.2 < t)) = u.length := by
  have hu : ∀ p ∈ u, p.2 < t := by
    intro p hp
    have h1 : timeLe p (a, t) :=
      (List.pairwise_append.mp hsort).2.2 p hp (a, t) (List.mem_cons_self _ _)
    have h2 : p.2 ≠ t :=
      (List.pairwise_append.mp hdist).2.2 p hp (a, t) (List.mem_cons_self _ _)
    exact lt_of_le_of_ne h1 h2
  have hv : ∀ q ∈ v, ¬ (q.2 < t) := by
    intro q hq
    have h1 : timeLe (a, t) q :=
      (List.pairwise_cons.mp (List.pairwise_append.mp hsort).2.1).1 q hq
    have : t ≤ q.2 := h1
    omega
  rw [List.countP_append, List.countP_cons]
  have hcu : u.countP (fun q => decide (q.2 < t)) = u.length :=
    List.countP_eq_length.mpr (fun p hp => by simpa using hu p hp)
  have hcv : v.countP (fun q => decide (q.2 < t)) = 0 :=
    List.countP_eq_zero.mpr (fun q hq => by simpa using hv q hq)
  simp [hcu, hcv]

/-- C2: for a practice/qualifying-family session in which no upstream row
has a non-null `Position` (and lap data exists), `get_driver_standings`
gives every driver with at least one valid lap the `Position`
`1 + (number of drivers with a strictly smaller best lap time)` — their
1-based rank by ascending minimum lap time, under the distinct-best-times
hypothesis — and stores that minimum lap time in the row's `Time`; drivers
with no valid lap keep their null `Position`; the output is sorted by
position (nulls last) and contains exactly the input drivers. -/
theorem claim2_qualifying_fallback (sessionType : String) (results : List ResultRow)
    (laps : List LapRow)
    (hpos : results.any (fun r => r.Position.isSome) = false)
    (hlaps : laps.isEmpty = false)
    (hrace : ¬ (sessionType = "Race" ∨ sessionType = "Sprint"))
    (hnodup : (results.map (fun r => r.Abbreviation)).Nodup)
    (hdist : (fastestLapsList results laps).Pairwise (fun p q => p.2 ≠ q.2)) :
    (∀ r ∈ results, ∀ t, bestLapTime laps r.Abbreviation = some t →
        { r with Position := some ((smallerBestCount results laps t + 1 : Nat) : ℚ),
                 Time := some t } ∈ get_driver_standings sessionType results laps) ∧
    (∀ r ∈ results, bestLapTime laps r.Abbreviation = none →
        r ∈ get_driver_standings sessionType results laps ∧ r.Position = none) ∧
    List.Sorted posLe (get_driver_standings sessionType results laps) ∧
    List.Perm ((get_driver_standings sessionType results laps).map (fun r => r.Abbreviation))
      (results.map (fun r => r.Abbreviation)) := by
  have hstand : get_driver_standings sessionType results laps =
      sortByPosition (assignPositions results (rankedBest results laps)) := by
    simp [get_driver_standings, hpos, hlaps, hrace]
  have hperm_ranked : List.Perm (rankedBest results laps) (fastestLapsList results laps) :=
    List.perm_insertionSort timeLe _
  have hsorted_ranked : List.Pairwise timeLe (rankedBest results laps) :=
    List.sorted_insertionSort timeLe _
  have hdist_ranked :
      List.Pairwise (fun p q : String × Nat => p.2 ≠ q.2) (rankedBest results laps) :=
    (hperm_ranked.pairwise_iff (fun hxy => hxy.symm)).mpr hdist
  have hnodup_fl : ((fastestLapsList results laps).map Prod.fst).Nodup :=
    hnodup.sublist (fastestLapsList_fst_sublist results laps)
  have hnodup_ranked : ((rankedBest results laps).map Prod.fst).Nodup :=
    ((hperm_ranked.map Prod.fst).nodup_iff).mpr hnodup_fl
  have hposnone : ∀ r ∈ results, r.Position = none := by
    intro r hr
    have hany := (List.any_eq_false.mp hpos) r hr
    cases hp : r.Position with
    | none => rfl
    | some v => rw [hp] at hany; simp at hany
  have hmem_perm : List.Perm (get_driver_standings sessionType results laps)
      (assignPositions results (rankedBest results laps)) := by
    rw [hstand]
    exact List.perm_insertionSort posLe _
  refine ⟨?_, ?_, ?_, ?_⟩
  · -- drivers with a valid lap get rank and best time
    intro r hr t ht
    have hflmem : (r.Abbreviation, t) ∈ fastestLapsList results laps :=
      mem_fastestLapsList results laps r t hr ht
    have hrankedmem : (r.Abbreviation, t) ∈ rankedBest results laps :=
      hperm_ranked.mem_iff.mpr hflmem
    obtain ⟨u, v, huv⟩ := List.append_of_mem hrankedmem
    have hfst : (rankedBest results laps).map Prod.fst =
        u.map Prod.fst ++ r.Abbreviation :: v.map Prod.fst := by
      rw [huv]; simp
    have hnd := hnodup_ranked
    rw [hfst] at hnd
    have hnd2 := List.nodup_append.mp hnd
    have hnotmem_u : r.Abbreviation ∉ u.map Prod.fst :=
      fun hin => hnd2.2.2 hin (List.mem_cons_self _ _)
    have hnotmem_v : r.Abbreviation ∉ v.map Prod.fst := (List.nodup_cons.mp hnd2.2.1).1
    have hnotin_u : ∀ p ∈ u.enum, p.2.1 ≠ r.Abbreviation := by
      intro p hp he
      have hsnd : p.2 ∈ u := by
        rw [List.enum_eq_enumFrom] at hp
        exact List.snd_mem_of_mem_enumFrom hp
      exact hnotmem_u (List.mem_map.mpr ⟨p.2, hsnd, he⟩)
    have hnotin_v : ∀ p ∈ v.enumFrom (u.length + 1), p.2.1 ≠ r.Abbreviation := by
      intro p hp he
      have hsnd : p.2 ∈ v := List.snd_mem_of_mem_enumFrom hp
      exact hnotmem_v (List.mem_map.mpr ⟨p.2, hsnd, he⟩)
    have henum : (rankedBest results laps).enum =
        u.enum ++ (u.length, (r.Abbreviation, t)) :: v.enumFrom (u.length + 1) := by
      rw [huv, List.enum_eq_enumFrom, List.enumFrom_append, List.enumFrom_cons]
      simp [List.enum_eq_enumFrom]
    have hfold : rowFold (rankedBest results laps).enum r =
        { r with Position := some ((u.length + 1 : Nat) : ℚ), Time := some t } := by
      rw [henum]
      exact rowFold_single_match u.enum (v.enumFrom (u.length + 1)) u.length
        r.Abbreviation t r rfl hnotin_u hnotin_v
    have hcount : u.length = smallerBestCount results laps t := by
      have h6 := sorted_distinct_index_count u v r.Abbreviation t
        (huv ▸ hsorted_ranked) (huv ▸ hdist_ranked)
      calc u.length
          = (u ++ (r.Abbreviation, t) :: v).countP (fun q => decide (q.2 < t)) := h6.symm
        _ = (rankedBest results laps).countP (fun q => decide (q.2 < t)) := by rw [← huv]
        _ = (fastestLapsList results laps).countP (fun q => decide (q.2 < t)) :=
            hperm_ranked.countP_eq _
        _ = smallerBestCount results laps t := countP_fastestLapsList results laps t
    have hmem_assign :
        { r with Position := some ((smallerBestCount results laps t + 1 : Nat) : ℚ),
                 Time := some t } ∈ assignPositions results (rankedBest results laps) := by
      rw [assignPositions_eq_map]
      refine List.mem_map.mpr ⟨r, hr, ?_⟩
      rw [hfold, hcount]
    exact hmem_perm.mem_iff.mpr hmem_assign
  · -- drivers with no valid lap are unchanged
    intro r hr ht
    have hnotin : ∀ p ∈ (rankedBest results laps).enum, p.2.1 ≠ r.Abbreviation := by
      intro p hp he
      have hsnd : p.2 ∈ rankedBest results laps := by
        rw [List.enum_eq_enumFrom] at hp
        exact List.snd_mem_of_mem_enumFrom hp
      have hfl : p.2 ∈ fastestLapsList results laps := hperm_ranked.mem_iff.mp hsnd
      have hbest : bestLapTime laps p.2.1 = some p.2.2 :=
        fastestLapsList_best results laps p.2.1 p.2.2 (by simpa using hfl)
      rw [he, ht] at hbest
      exact Option.noConfusion hbest
    have hfold : rowFold (rankedBest results laps).enum r = r := rowFold_no_match _ r hnotin
    refine ⟨?_, hposnone r hr⟩
    have hmem_assign : r ∈ assignPositions results (rankedBest results laps) := by
      rw [assignPositions_eq_map]
      exact List.mem_map.mpr ⟨r, hr, hfold⟩
    exact hmem_perm.mem_iff.mpr hmem_assign
  · rw [hstand]
    exact List.sorted_insertionSort posLe _
  · have habbrev : (assignPositions results (rankedBest results laps)).map
        (fun r => r.Abbreviation) = results.map (fun r => r.Abbreviation) := by
      rw [assignPositions_eq_map, List.map_map]
      exact List.map_congr_left (fun r _ => rowFold_abbreviation _ r)
    have hp2 := hmem_perm.map (fun r => r.Abbreviation)
    rw [habbrev] at hp2
    exact hp2

/-- Twenty result rows, all with null upstream positions (the C2 scenario). -/
def resultsC2 : List ResultRow :=
  (List.range 20).map (fun i =>
    { DriverNumber := toString (i + 1), Abbreviation := "D" ++ toString (i + 1),
      TeamName := "Team", TeamColor := some "123456", Position := none,
      Points := none, Status := "Finished", Time := none })

/-- One valid lap per driver; driver `D(i+1)` has lap time `60 - i` ms, so
all twenty best times are distinct and the best-lap order is the reverse of
the frame order. -/
def lapsC2 : List LapRow :=
  (List.range 20).map (fun i =>
    { Driver := "D" ++ toString (i + 1), DriverNumber := toString (i + 1),
      LapNumber := 1, LapTime := some (60 - i), Compound := some "SOFT",
      Position := none })

set_option maxRecDepth 8000 in
/-- Witness for C2: twenty drivers, all null upstream positions, Qualifying
session, twenty distinct fastest-lap times — the hypotheses hold, the
theorem applies, and the resulting standings carry the positions 1..20 in
ascending fastest-lap order. -/
theorem claim2_witness :
    (resultsC2.any (fun r => r.Position.isSome) = false ∧
     lapsC2.isEmpty = false ∧
     ¬ (("Qualifying" : String) = "Race" ∨ ("Qualifying" : String) = "Sprint") ∧
     (resultsC2.map (fun r => r.Abbreviation)).Nodup ∧
     (fastestLapsList resultsC2 lapsC2).Pairwise (fun p q => p.2 ≠ q.2)) ∧
    ((∀ r ∈ resultsC2, ∀ t, bestLapTime lapsC2 r.Abbreviation = some t →
        { r with Position := some ((smallerBestCount resultsC2 lapsC2 t + 1 : Nat) : ℚ),
                 Time := some t } ∈ get_driver_standings "Qualifying" resultsC2 lapsC2) ∧
     (∀ r ∈ resultsC2, bestLapTime lapsC2 r.Abbreviation = none →
        r ∈ get_driver_standings "Qualifying" resultsC2 lapsC2 ∧ r.Position = none) ∧
     List.Sorted posLe (get_driver_standings "Qualifying" resultsC2 lapsC2) ∧
     List.Perm
       ((get_driver_standings "Qualifying" resultsC2 lapsC2).map (fun r => r.Abbreviation))
       (resultsC2.map (fun r => r.Abbreviation))) ∧
    (get_driver_standings "Qualifying" resultsC2 lapsC2).map (fun r => r.Position) =
      (List.range 20).map (fun i => some ((i + 1 : Nat) : ℚ)) :=
  ⟨⟨by decide, by decide, by decide, by decide, by decide⟩,
    claim2_qualifying_fallback "Qualifying" resultsC2 lapsC2 (by decide) (by decide)
      (by decide) (by decide) (by decide),
    by with_unfolding_all decide⟩

/-! ### C4 -/

/-- `sortedDrivers` is one of the two orders of its arguments. -/
theorem sortedDrivers_eq_or (d1 d2 : String) :
    sortedDrivers d1 d2 = [d1, d2] ∨ sortedDrivers d1 d2 = [d2, d1] := by
  unfold sortedDrivers
  split
  · right; rfl
  · left; rfl

/-- A strictly dominated minisector is attributed to the dominating driver,
whichever groupby order the two drivers appear in. -/
theorem fastestInMinisector_of_fasterIn (tel : List TelRow) (L : ℚ) (m : ℤ)
    (dwin dlose : String) (ds : List String)
    (hds : ds = [dwin, dlose] ∨ ds = [dlose, dwin])
    (h : fasterIn tel L m dwin dlose) :
    fastestInMinisector tel L m ds = some dwin := by
  unfold fasterIn at h
  cases hw : meanSpeed tel L m dwin with
  | none => rw [hw] at h; exact absurd h (by simp [optFaster])
  | some sw =>
    cases hl : meanSpeed tel L m dlose with
    | none => rw [hw, hl] at h; exact absurd h (by simp [optFaster])
    | some sl =>
      rw [hw, hl] at h
      have hlt : sl < sw := h
      have hnot : ¬ sw < sl := not_lt.mpr (le_of_lt hlt)
      rcases hds with rfl | rfl
      · simp [fastestInMinisector, hw, hl, hnot]
      · simp [fastestInMinisector, hw, hl, hlt]

/-- Both mean speeds behind a `fasterIn` fact are defined. -/
theorem fasterIn_means_defined (tel : List TelRow) (L : ℚ) (m : ℤ)
    (dwin dlose : String) (h : fasterIn tel L m dwin dlose) :
    meanSpeed tel L m dwin ≠ none ∧ meanSpeed tel L m dlose ≠ none := by
  unfold fasterIn at h
  cases hw : meanSpeed tel L m dwin <;> cases hl : meanSpeed tel L m dlose <;>
    rw [hw, hl] at h <;> simp [optFaster] at h ⊢

/-- A driver with a defined mean speed in a minisector has points there. -/
theorem minisectorPoints_ne_nil (tel : List TelRow) (L : ℚ) (m : ℤ) (d : String)
    (h : meanSpeed tel L m d ≠ none) : minisectorPoints tel L m d ≠ [] := by
  have hrows : (minisectorRows tel L m d).isEmpty = false := by
    by_cases he : (minisectorRows tel L m d).isEmpty
    · exact absurd (by simp [meanSpeed, he]) h
    · simpa using he
  unfold minisectorPoints
  intro hmap
  have hsort : (minisectorRows tel L m d).insertionSort
      (fun a b => a.pt.Distance ≤ b.pt.Distance) = [] := by
    exact List.map_eq_nil_iff.mp hmap
  have hlen := (List.perm_insertionSort
    (fun a b : TelRow => a.pt.Distance ≤ b.pt.Distance) (minisectorRows tel L m d)).length_eq
  rw [hsort] at hlen
  have : minisectorRows tel L m d = [] := List.length_eq_zero.mp hlen.symm
  rw [this] at hrows
  simp at hrows

/-- A `filterMap` whose function always returns `some` is a `map`. -/
theorem filterMap_eq_map_of_some {α β : Type} (l : List α) (f : α → Option β) (g : α → β)
    (h : ∀ a ∈ l, f a = some (g a)) : l.filterMap f = l.map g := by
  induction l with
  | nil => rfl
  | cons x xs ih =>
    rw [List.filterMap_cons, h x (List.mem_cons_self x xs), List.map_cons,
      ih (fun a ha => h a (List.mem_cons_of_mem x ha))]

/-- Walking a block of minisectors led by the current driver only extends the
current segment with the block's points. -/
theorem foldl_mergeStep_same (d : String) (entries : List (String × List (ℚ × ℚ)))
    (hall : ∀ e ∈ entries, e.1 = d) :
    ∀ (pts : List (ℚ × ℚ)) (segs : List Segment),
      entries.foldl mergeStep { cur := some d, curPts := pts, segs := segs } =
        { cur := some d, curPts := pts ++ (entries.map Prod.snd).flatten, segs := segs } := by
  induction entries with
  | nil => intro pts segs; simp
  | cons e es ih =>
    intro pts segs
    have he : e.1 = d := hall e (List.mem_cons_self _ _)
    have hstep : mergeStep { cur := some d, curPts := pts, segs := segs } e =
        { cur := some d, curPts := pts ++ e.2, segs := segs } := by
      simp [mergeStep, he]
    rw [List.foldl_cons, hstep, ih (fun x hx => hall x (List.mem_cons_of_mem e hx))]
    simp

/-- The merge walk over a block of `dA`-led minisectors followed by a block
of `dB`-led minisectors yields exactly the two concatenated segments. -/
theorem mergeSegments_two_blocks (dA dB : String) (e1 e2 : List (String × List (ℚ × ℚ)))
    (hne : dA ≠ dB)
    (h1 : ∀ e ∈ e1, e.1 = dA) (h2 : ∀ e ∈ e2, e.1 = dB)
    (hne1 : e1 ≠ []) (hne2 : e2 ≠ [])
    (hp1 : ∀ e ∈ e1, e.2 ≠ []) (hp2 : ∀ e ∈ e2, e.2 ≠ []) :
    mergeSegments (e1 ++ e2) =
      [{ fastestDriver := dA, points := (e1.map Prod.snd).flatten },
       { fastestDriver := dB, points := (e2.map Prod.snd).flatten }] := by
  match e1, hne1 with
  | a1 :: e1', _ =>
  match e2, hne2 with
  | b1 :: e2', _ =>
  have ha1 : a1.1 = dA := h1 a1 (List.mem_cons_self _ _)
  have hb1 : b1.1 = dB := h2 b1 (List.mem_cons_self _ _)
  have ha1p : a1.2 ≠ [] := hp1 a1 (List.mem_cons_self _ _)
  have hb1p : b1.2 ≠ [] := hp2 b1 (List.mem_cons_self _ _)
  have hstart : mergeStep { cur := none, curPts := [], segs := [] } a1 =
      { cur := some a1.1, curPts := a1.2, segs := [] } := by
    simp [mergeStep]
  have hinner1 : List.foldl mergeStep { cur := none, curPts := [], segs := [] } (a1 :: e1') =
      { cur := some dA, curPts := a1.2 ++ (e1'.map Prod.snd).flatten, segs := [] } := by
    rw [List.foldl_cons, hstart, ha1]
    exact foldl_mergeStep_same dA e1' (fun x hx => h1 x (List.mem_cons_of_mem a1 hx)) a1.2 []
  have hflush : mergeStep
      { cur := some dA, curPts := a1.2 ++ (e1'.map Prod.snd).flatten, segs := [] } b1 =
      { cur := some b1.1, curPts := b1.2,
        segs := [{ fastestDriver := dA, points := a1.2 ++ (e1'.map Prod.snd).flatten }] } := by
    have hcond : ¬ (some b1.1 = some dA) := by
      rw [hb1]
      exact fun hc => hne (Option.some.inj hc).symm
    have hempty : (a1.2 ++ (e1'.map Prod.snd).flatten).isEmpty = false := by
      cases hv : a1.2 with
      | nil => exact absurd hv ha1p
      | cons y ys => simp [hv]
    simp [mergeStep, hcond, hempty]
  have hinner2 : List.foldl mergeStep
      { cur := some dA, curPts := a1.2 ++ (e1'.map Prod.snd).flatten, segs := [] } (b1 :: e2') =
      { cur := some dB, curPts := b1.2 ++ (e2'.map Prod.snd).flatten,
        segs := [{ fastestDriver := dA, points := a1.2 ++ (e1'.map Prod.snd).flatten }] } := by
    rw [List.foldl_cons, hflush, hb1]
    exact foldl_mergeStep_same dB e2' (fun x hx => h2 x (List.mem_cons_of_mem b1 hx)) b1.2 _
  have hfinal : (b1.2 ++ (e2'.map Prod.snd).flatten).isEmpty = false := by
    cases hv : b1.2 with
    | nil => exact absurd hv hb1p
    | cons y ys => simp [hv]
  unfold mergeSegments
  rw [List.foldl_append, hinner1, hinner2]
  simp [hfinal]

/-- C4 (amended): when the two drivers' minisector dominance is
non-overlapping — driver 1 with the strictly higher mean speed in
minisectors 0 through 12 and driver 2 in minisectors 13 through 25, where 25
is the boundary minisector that the floor-division assignment always creates
at the exact maximum distance — and exactly those minisectors are populated,
the walk emits exactly 2 segments: the first attributed to driver 1 with the
raw telemetry points of minisectors 0–12 (distances in `[0, 13·L)`), the
second to driver 2 with the points of minisectors 13–25 (distances from
`13·L` up to the full lap distance), each span in distance order. -/
theorem claim4_track_dominance_segments (d1 d2 : String) (tel1 tel2 : List TelPoint)
    (hne : d1 ≠ d2)
    (hms : minisectorsOf (mergedTel d1 d2 tel1 tel2) (msLength (mergedTel d1 d2 tel1 tel2)) =
      (List.range 13).map (fun i : ℕ => (i : ℤ)) ++
        (List.range 13).map (fun i : ℕ => ((13 + i : ℕ) : ℤ)))
    (hA : ∀ m ∈ (List.range 13).map (fun i : ℕ => (i : ℤ)),
      fasterIn (mergedTel d1 d2 tel1 tel2) (msLength (mergedTel d1 d2 tel1 tel2)) m d1 d2)
    (hB : ∀ m ∈ (List.range 13).map (fun i : ℕ => ((13 + i : ℕ) : ℤ)),
      fasterIn (mergedTel d1 d2 tel1 tel2) (msLength (mergedTel d1 d2 tel1 tel2)) m d2 d1) :
    trackDominanceSegments d1 d2 tel1 tel2 =
      [{ fastestDriver := d1,
         points := ((List.range 13).map (fun i : ℕ =>
           minisectorPoints (mergedTel d1 d2 tel1 tel2)
             (msLength (mergedTel d1 d2 tel1 tel2)) (i : ℤ) d1)).flatten },
       { fastestDriver := d2,
         points := ((List.range 13).map (fun i : ℕ =>
           minisectorPoints (mergedTel d1 d2 tel1 tel2)
             (msLength (mergedTel d1 d2 tel1 tel2)) ((13 + i : ℕ) : ℤ) d2)).flatten }] ∧
    (trackDominanceSegments d1 d2 tel1 tel2).length = 2 := by
  have hentries : dominanceEntries d1 d2 (mergedTel d1 d2 tel1 tel2)
      (msLength (mergedTel d1 d2 tel1 tel2)) =
      (List.range 13).map (fun i : ℕ => (d1, minisectorPoints (mergedTel d1 d2 tel1 tel2)
        (msLength (mergedTel d1 d2 tel1 tel2)) (i : ℤ) d1)) ++
      (List.range 13).map (fun i : ℕ => (d2, minisectorPoints (mergedTel d1 d2 tel1 tel2)
        (msLength (mergedTel d1 d2 tel1 tel2)) ((13 + i : ℕ) : ℤ) d2)) := by
    unfold dominanceEntries
    rw [hms, List.filterMap_append, List.filterMap_map, List.filterMap_map]
    congr 1
    · apply filterMap_eq_map_of_some
      intro i hi
      have hf := hA _ (List.mem_map.mpr ⟨i, hi, rfl⟩)
      have hfast := fastestInMinisector_of_fasterIn (mergedTel d1 d2 tel1 tel2)
        (msLength (mergedTel d1 d2 tel1 tel2)) (i : ℤ) d1 d2 _
        (sortedDrivers_eq_or d1 d2) hf
      simp only [Function.comp_apply]
      rw [hfast]
      rfl
    · apply filterMap_eq_map_of_some
      intro i hi
      have hf := hB _ (List.mem_map.mpr ⟨i, hi, rfl⟩)
      have hfast := fastestInMinisector_of_fasterIn (mergedTel d1 d2 tel1 tel2)
        (msLength (mergedTel d1 d2 tel1 tel2)) ((13 + i : ℕ) : ℤ) d2 d1 _
        (sortedDrivers_eq_or d1 d2).symm hf
      simp only [Function.comp_apply]
      rw [hfast]
      rfl
  have hunfold : trackDominanceSegments d1 d2 tel1 tel2 =
      mergeSegments (dominanceEntries d1 d2 (mergedTel d1 d2 tel1 tel2)
        (msLength (mergedTel d1 d2 tel1 tel2))) := rfl
  have hsnd1 : ((List.range 13).map (fun i : ℕ => (d1, minisectorPoints
      (mergedTel d1 d2 tel1 tel2) (msLength (mergedTel d1 d2 tel1 tel2)) (i : ℤ) d1))).map
        Prod.snd =
      (List.range 13).map (fun i : ℕ => minisectorPoints (mergedTel d1 d2 tel1 tel2)
        (msLength (mergedTel d1 d2 tel1 tel2)) (i : ℤ) d1) := by
    rw [List.map_map]
    rfl
  have hsnd2 : ((List.range 13).map (fun i : ℕ => (d2, minisectorPoints
      (mergedTel d1 d2 tel1 tel2) (msLength (mergedTel d1 d2 tel1 tel2))
        ((13 + i : ℕ) : ℤ) d2))).map Prod.snd =
      (List.range 13).map (fun i : ℕ => minisectorPoints (mergedTel d1 d2 tel1 tel2)
        (msLength (mergedTel d1 d2 tel1 tel2)) ((13 + i : ℕ) : ℤ) d2) := by
    rw [List.map_map]
    rfl
  have hseg : trackDominanceSegments d1 d2 tel1 tel2 =
      [{ fastestDriver := d1,
         points := ((List.range 13).map (fun i : ℕ =>
           minisectorPoints (mergedTel d1 d2 tel1 tel2)
             (msLength (mergedTel d1 d2 tel1 tel2)) (i : ℤ) d1)).flatten },
       { fastestDriver := d2,
         points := ((List.range 13).map (fun i : ℕ =>
           minisectorPoints (mergedTel d1 d2 tel1 tel2)
             (msLength (mergedTel d1 d2 tel1 tel2)) ((13 + i : ℕ) : ℤ) d2)).flatten }] := by
    rw [hunfold, hentries]
    rw [mergeSegments_two_blocks d1 d2 _ _ hne ?h1 ?h2 ?hne1 ?hne2 ?hp1 ?hp2]
    · rw [hsnd1, hsnd2]
    case h1 =>
      intro e he
      obtain ⟨i, _, rfl⟩ := List.mem_map.mp he
      rfl
    case h2 =>
      intro e he
      obtain ⟨i, _, rfl⟩ := List.mem_map.mp he
      rfl
    case hne1 =>
      simp
    case hne2 =>
      simp
    case hp1 =>
      intro e he
      obtain ⟨i, hi, rfl⟩ := List.mem_map.mp he
      have hf := hA _ (List.mem_map.mpr ⟨i, hi, rfl⟩)
      exact minisectorPoints_ne_nil _ _ _ _ (fasterIn_means_defined _ _ _ _ _ hf).1
    case hp2 =>
      intro e he
      obtain ⟨i, hi, rfl⟩ := List.mem_map.mp he
      have hf := hB _ (List.mem_map.mpr ⟨i, hi, rfl⟩)
      exact minisectorPoints_ne_nil _ _ _ _ (fasterIn_means_defined _ _ _ _ _ hf).1
  refine ⟨hseg, ?_⟩
  rw [hseg]
  rfl

/-- Driver A telemetry for the C4 counterexample and witness: one sample per
minisector 0–24 at distance `4m+1`, dominating (speed 2 against 1) through
minisector 12, plus the lap-closing sample at the full 100-unit distance —
which the floor-division assignment places in the boundary minisector 25. -/
def telA_C4 : List TelPoint :=
  ((List.range 25).map (fun m : ℕ =>
    { Distance := ((4 * m + 1 : ℕ) : ℚ), Speed := if m ≤ 12 then 2 else 1,
      X := (m : ℚ), Y := 0 })) ++
  [{ Distance := 100, Speed := 1, X := 25, Y := 0 }]

/-- Driver B telemetry for the counterexample: one sample per minisector
0–24 at distance `4m+2`, dominating from minisector 13 on; B's lap reaches
only distance 98, so B is absent from the boundary minisector 25. -/
def telB_C4 : List TelPoint :=
  (List.range 25).map (fun m : ℕ =>
    { Distance := ((4 * m + 2 : ℕ) : ℚ), Speed := if m ≤ 12 then 1 else 2,
      X := (m : ℚ), Y := 1 })

/-- The merged, driver-tagged telemetry of the counterexample. -/
def telC4 : List TelRow := mergedTel "A" "B" telA_C4 telB_C4

set_option maxRecDepth 8000 in
/-- Counterexample to C4 as stated: driver A has the strictly higher mean
speed in every minisector 0–12 and driver B in every minisector 13–24
(each minisector length is 4 here), yet the output contains 3 segments,
not 2.  The floor-division assignment places the maximum-distance sample in
a 26th boundary minisector (index 25); here driver A alone holds it (B has
no sample there), so the walk emits a third segment attributed to A after
B's block. -/
theorem claim4_counterexample :
    (∀ m ∈ (List.range 13).map (fun i : ℕ => (i : ℤ)),
        fasterIn telC4 (msLength telC4) m "A" "B") ∧
    (∀ m ∈ (List.range 12).map (fun i : ℕ => ((13 + i : ℕ) : ℤ)),
        fasterIn telC4 (msLength telC4) m "B" "A") ∧
    msLength telC4 = 4 ∧
    meanSpeed telC4 (msLength telC4) 25 "B" = none ∧
    meanSpeed telC4 (msLength telC4) 25 "A" = some 1 ∧
    (trackDominanceSegments "A" "B" telA_C4 telB_C4).map (fun s => s.fastestDriver) =
      ["A", "B", "A"] ∧
    (trackDominanceSegments "A" "B" telA_C4 telB_C4).length = 3 := by
  with_unfolding_all decide

/-- Driver B telemetry for the C4 witness: as in the counterexample but with
a lap-closing sample at the full 100-unit distance, so both drivers appear
in the boundary minisector 25 and B (speed 2 against 1) leads it. -/
def telB_W4 : List TelPoint :=
  ((List.range 25).map (fun m : ℕ =>
    { Distance := ((4 * m + 2 : ℕ) : ℚ), Speed := if m ≤ 12 then 1 else 2,
      X := (m : ℚ), Y := 1 })) ++
  [{ Distance := 100, Speed := 2, X := 25, Y := 1 }]

set_option maxRecDepth 8000 in
/-- Witness for the amended C4: at the concrete non-overlapping-dominance
telemetry in which driver B also leads the boundary minisector 25, the
hypotheses hold and the theorem yields exactly the two segments. -/
theorem claim4_witness :
    (("A" : String) ≠ "B" ∧
     minisectorsOf (mergedTel "A" "B" telA_C4 telB_W4)
         (msLength (mergedTel "A" "B" telA_C4 telB_W4)) =
       (List.range 13).map (fun i : ℕ => (i : ℤ)) ++
         (List.range 13).map (fun i : ℕ => ((13 + i : ℕ) : ℤ)) ∧
     (∀ m ∈ (List.range 13).map (fun i : ℕ => (i : ℤ)),
        fasterIn (mergedTel "A" "B" telA_C4 telB_W4)
          (msLength (mergedTel "A" "B" telA_C4 telB_W4)) m "A" "B") ∧
     (∀ m ∈ (List.range 13).map (fun i : ℕ => ((13 + i : ℕ) : ℤ)),
        fasterIn (mergedTel "A" "B" telA_C4 telB_W4)
          (msLength (mergedTel "A" "B" telA_C4 telB_W4)) m "B" "A")) ∧
    (trackDominanceSegments "A" "B" telA_C4 telB_W4 =
      [{ fastestDriver := "A",
         points := ((List.range 13).map (fun i : ℕ =>
           minisectorPoints (mergedTel "A" "B" telA_C4 telB_W4)
             (msLength (mergedTel "A" "B" telA_C4 telB_W4)) (i : ℤ) "A")).flatten },
       { fastestDriver := "B",
         points := ((List.range 13).map (fun i : ℕ =>
           minisectorPoints (mergedTel "A" "B" telA_C4 telB_W4)
             (msLength (mergedTel "A" "B" telA_C4 telB_W4)) ((13 + i : ℕ) : ℤ) "B")).flatten }] ∧
     (trackDominanceSegments "A" "B" telA_C4 telB_W4).length = 2) :=
  ⟨⟨by decide, by with_unfolding_all decide, by with_unfolding_all decide,
    by with_unfolding_all decide⟩,
    claim4_track_dominance_segments "A" "B" telA_C4 telB_W4 (by decide)
      (by with_unfolding_all decide) (by with_unfolding_all decide)
      (by with_unfolding_all decide)⟩
